import Mathlib

/-!
Shallow embedding of the playback state store (`src/store/playerStore.ts`)
and the audio-bridge effects of the player hook (`src/hooks/usePlayer.ts`)
of the groovy frontend, together with proofs about the store's operations
and the states reachable from its initial state.

JavaScript numbers are modelled as `ℚ` (every literal compared here is
exact in binary64, so order comparisons agree), optional fields as
`Option`, and a thrown exception as the `Except.error` branch carrying the
store state already committed when the throw happened.
-/

namespace Groovy

/-- `SongDto` from `src/types` (`id?: number; title; duration; ...`). -/
structure SongDto where
  id : Option Int
  title : String
  duration : ℚ
  filePath : Option String
  albumId : Option Int
  albumName : Option String
  artistId : Option Int
  artistName : Option String
  genre : Option String
  releaseDate : Option String
  deriving DecidableEq, Repr

/-- Builds a `SongDto` with the given id, title and duration; the optional
metadata fields are absent. -/
def mkSong (id : Option Int) (title : String) (duration : ℚ) : SongDto :=
  ⟨id, title, duration, none, none, none, none, none, none, none⟩

/-- `PlaylistDto` from `src/types` (`id?; name; userId; songs?: SongDto[]`). -/
structure PlaylistDto where
  id : Option Int
  name : String
  userId : Int
  userName : Option String
  coverImage : Option String
  songs : Option (List SongDto)
  deriving DecidableEq, Repr

/-- Builds a `PlaylistDto` with the given name and song list. -/
def mkPlaylist (name : String) (songs : Option (List SongDto)) : PlaylistDto :=
  ⟨none, name, 0, none, none, songs⟩

/-- The data fields of the zustand `PlayerState` in `playerStore.ts`. -/
structure PlayerState where
  currentSong : Option SongDto
  currentPlaylist : Option PlaylistDto
  queue : List SongDto
  isPlaying : Bool
  volume : ℚ
  progress : ℚ
  duration : ℚ
  isPlayerVisible : Bool
  isFullscreen : Bool
  deriving DecidableEq, Repr

/-- The initial state of `usePlayerStore`. -/
def initialState : PlayerState :=
  { currentSong := none
    currentPlaylist := none
    queue := []
    isPlaying := false
    volume := mkRat 7 10
    progress := 0
    duration := 0
    isPlayerVisible := true
    isFullscreen := false }

/-- JavaScript `currentSong?.id`: `undefined` when `currentSong` is null,
its (possibly `undefined`) `id` otherwise. -/
def currentSongId (s : PlayerState) : Option Int :=
  s.currentSong.bind SongDto.id

/-- `playSong` of `playerStore.ts`.  The same-song test is
`currentSong?.id === song.id`; `undefined === undefined` is true in
JavaScript, so two absent ids compare equal. -/
def playSong (song : SongDto) (s : PlayerState) : PlayerState :=
  if currentSongId s = song.id then
    if s.isPlaying then s else { s with isPlaying := true }
  else
    { s with currentSong := some song, isPlaying := true, progress := 0,
             isPlayerVisible := true }

/-- `playQueue` of `playerStore.ts`.  The guard is
`!songs.length || startIndex >= songs.length`; a negative `startIndex`
passes it, `newQueue[startIndex]` is then `undefined` and the template
access `currentSong.title` throws a TypeError before any `set`, which the
`Except.error` branch models (carrying the unchanged state).
`splice(startIndex, 1)` is `List.eraseIdx`. -/
def playQueue (songs : List SongDto) (startIndex : Int) (s : PlayerState) :
    Except PlayerState PlayerState :=
  if songs.length = 0 ∨ (songs.length : Int) ≤ startIndex then
    Except.ok s
  else if startIndex < 0 then
    Except.error s
  else
    match songs.get? startIndex.toNat with
    | some cur =>
        Except.ok { s with currentSong := some cur,
                           queue := songs.eraseIdx startIndex.toNat,
                           isPlaying := true, progress := 0,
                           isPlayerVisible := true }
    | none => Except.error s

/-- `playPlaylist` of `playerStore.ts`: guard on
`!playlist.songs || !playlist.songs.length`, then
`set({ currentPlaylist })` followed by delegation to `playQueue`; the
`currentPlaylist` update is committed even when `playQueue` throws. -/
def playPlaylist (playlist : PlaylistDto) (startIndex : Int) (s : PlayerState) :
    Except PlayerState PlayerState :=
  match playlist.songs with
  | none => Except.ok s
  | some songs =>
      if songs.length = 0 then Except.ok s
      else playQueue songs startIndex { s with currentPlaylist := some playlist }

/-- `togglePlay` of `playerStore.ts`: flips `isPlaying` only when a song
is current. -/
def togglePlay (s : PlayerState) : PlayerState :=
  match s.currentSong with
  | some _ => { s with isPlaying := !s.isPlaying }
  | none => s

/-- `play` of `playerStore.ts`. -/
def play (s : PlayerState) : PlayerState :=
  match s.currentSong with
  | some _ => { s with isPlaying := true }
  | none => s

/-- `pause` of `playerStore.ts`. -/
def pause (s : PlayerState) : PlayerState :=
  { s with isPlaying := false }

/-- `next` of `playerStore.ts`: pop the queue head; else restart the
current playlist from its first song; else stop (`isPlaying=false`,
`progress=0`). -/
def next (s : PlayerState) : PlayerState :=
  match s.queue with
  | nextSong :: rest =>
      { s with currentSong := some nextSong, queue := rest, progress := 0,
               isPlaying := true }
  | [] =>
      match s.currentPlaylist with
      | some pl =>
          match pl.songs with
          | some (first :: rest) =>
              { s with currentSong := some first, queue := rest, progress := 0,
                       isPlaying := true }
          | some [] => { s with isPlaying := false, progress := 0 }
          | none => { s with isPlaying := false, progress := 0 }
      | none => { s with isPlaying := false, progress := 0 }

/-- `previous` of `playerStore.ts`.  `progress > 3` restarts in place;
otherwise, with a non-empty playlist, `findIndex` by
`song.id === currentSong?.id` (`-1` is the `none` branch); an index `> 0`
promotes the preceding song and `splice(0, currentIndex)` leaves
`songs.drop currentIndex` as the queue; else only `progress` is reset. -/
def previous (s : PlayerState) : PlayerState :=
  if 3 < s.progress then
    { s with progress := 0 }
  else
    match s.currentPlaylist with
    | none => s
    | some pl =>
        match pl.songs with
        | none => s
        | some songs =>
            if songs.length = 0 then s
            else
              match songs.findIdx? (fun song => song.id == currentSongId s) with
              | some i =>
                  if 0 < i then
                    match songs.get? (i - 1) with
                    | some previousSong =>
                        { s with currentSong := some previousSong,
                                 queue := songs.drop i, progress := 0,
                                 isPlaying := true }
                    | none => s
                  else { s with progress := 0 }
              | none => { s with progress := 0 }

/-- `setVolume` of `playerStore.ts`: clamps to `[0, 1]`. -/
def setVolume (volume : ℚ) (s : PlayerState) : PlayerState :=
  { s with volume := max 0 (min 1 volume) }

/-- `setProgress` of `playerStore.ts`. -/
def setProgress (progress : ℚ) (s : PlayerState) : PlayerState :=
  { s with progress := progress }

/-- `setDuration` of `playerStore.ts`. -/
def setDuration (duration : ℚ) (s : PlayerState) : PlayerState :=
  { s with duration := duration }

/-- `addToQueue` of `playerStore.ts`: appends unconditionally. -/
def addToQueue (song : SongDto) (s : PlayerState) : PlayerState :=
  { s with queue := s.queue ++ [song] }

/-- `removeFromQueue` of `playerStore.ts`: in-range `splice(index, 1)`,
no-op otherwise. -/
def removeFromQueue (index : Int) (s : PlayerState) : PlayerState :=
  if 0 ≤ index ∧ index < (s.queue.length : Int) then
    { s with queue := s.queue.eraseIdx index.toNat }
  else s

/-- `clearQueue` of `playerStore.ts`. -/
def clearQueue (s : PlayerState) : PlayerState :=
  { s with queue := [] }

/-- `updateQueueOrder` of `playerStore.ts`: replaces the queue wholesale. -/
def updateQueueOrder (newQueue : List SongDto) (s : PlayerState) : PlayerState :=
  { s with queue := newQueue }

/-- `stopAndClosePlayer` of `playerStore.ts`. -/
def stopAndClosePlayer (s : PlayerState) : PlayerState :=
  { s with isPlaying := false, currentSong := none, currentPlaylist := none,
           queue := [], progress := 0, isPlayerVisible := false,
           isFullscreen := false }

/-- `togglePlayerVisibility` of `playerStore.ts`: the new visibility is
`!isPlayerVisible` and `isFullscreen` is `!isPlayerVisible ? false :
get().isFullscreen` — cleared when the player is being shown, kept when it
is being hidden. -/
def togglePlayerVisibility (s : PlayerState) : PlayerState :=
  { s with isPlayerVisible := !s.isPlayerVisible,
           isFullscreen := if !s.isPlayerVisible then false else s.isFullscreen }

/-- `toggleFullscreen` of `playerStore.ts`. -/
def toggleFullscreen (s : PlayerState) : PlayerState :=
  if !s.isPlayerVisible then
    { s with isPlayerVisible := true, isFullscreen := true }
  else
    { s with isFullscreen := !s.isFullscreen }

/-- The state committed by a call that may throw: zustand updates issued
before the throw stay in place, so both branches carry the resulting
store state. -/
def commitState : Except PlayerState PlayerState → PlayerState
  | Except.ok s => s
  | Except.error s => s

/-- One user-visible store operation of `playerStore.ts`, with its
arguments. -/
inductive Action where
  | playSong (song : SongDto)
  | playQueue (songs : List SongDto) (startIndex : Int)
  | playPlaylist (playlist : PlaylistDto) (startIndex : Int)
  | togglePlay
  | play
  | pause
  | next
  | previous
  | setVolume (volume : ℚ)
  | setProgress (progress : ℚ)
  | setDuration (duration : ℚ)
  | addToQueue (song : SongDto)
  | removeFromQueue (index : Int)
  | clearQueue
  | updateQueueOrder (newQueue : List SongDto)
  | stopAndClosePlayer
  | togglePlayerVisibility
  | toggleFullscreen
  deriving Repr

/-- The store state after executing one operation (the committed state,
whether or not the call threw). -/
def step (s : PlayerState) : Action → PlayerState
  | Action.playSong song => playSong song s
  | Action.playQueue songs startIndex => commitState (playQueue songs startIndex s)
  | Action.playPlaylist pl startIndex => commitState (playPlaylist pl startIndex s)
  | Action.togglePlay => togglePlay s
  | Action.play => play s
  | Action.pause => pause s
  | Action.next => next s
  | Action.previous => previous s
  | Action.setVolume v => setVolume v s
  | Action.setProgress p => setProgress p s
  | Action.setDuration d => setDuration d s
  | Action.addToQueue song => addToQueue song s
  | Action.removeFromQueue index => removeFromQueue index s
  | Action.clearQueue => clearQueue s
  | Action.updateQueueOrder q => updateQueueOrder q s
  | Action.stopAndClosePlayer => stopAndClosePlayer s
  | Action.togglePlayerVisibility => togglePlayerVisibility s
  | Action.toggleFullscreen => toggleFullscreen s

/-- The store state after a sequence of operations. -/
def run (s : PlayerState) (acts : List Action) : PlayerState :=
  acts.foldl step s

/-! ## Audio bridge (`src/hooks/usePlayer.ts`)

The hook owns the single shared audio element.  Its effects are modelled
as functions on the device's observable fields. -/

/-- The observable fields of the shared `HTMLAudioElement`. -/
structure AudioDevice where
  src : String
  paused : Bool
  currentTime : ℚ
  deriving DecidableEq, Repr

/-- The `isPlayerVisible` effect of `usePlayer.ts`:
`if (!isPlayerVisible) { audio.pause(); audio.currentTime = 0; }`. -/
def onVisibilityChange (isPlayerVisible : Bool) (d : AudioDevice) : AudioDevice :=
  if !isPlayerVisible then { d with paused := true, currentTime := 0 } else d

/-- The continuation of the `loadSong` effect of `usePlayer.ts` that runs
after `await songService.getStreamUrl(currentSong.id!)` resolves to
`songUrl`.  It closes over the `currentSong` and `isPlaying` captured when
the effect ran and consults only the device: it never re-reads the store's
current song.  `if (currentSrc && currentSrc === songUrl)` resumes a
paused same-source device; otherwise it pauses, rewinds, assigns the new
source and, when the captured `isPlaying` is true, starts playback. -/
def loadSongApply (songUrl : String) (capturedIsPlaying : Bool)
    (d : AudioDevice) : AudioDevice :=
  if d.src ≠ "" ∧ d.src = songUrl then
    if capturedIsPlaying ∧ d.paused then { d with paused := false } else d
  else
    let loaded := { d with paused := true, currentTime := 0, src := songUrl }
    if capturedIsPlaying then { loaded with paused := false } else loaded

/-! ## Concrete fixtures used by counterexamples and witnesses -/

/-- A concrete track with id 1. -/
def songA : SongDto := mkSong (some 1) "A" 180

/-- A concrete track with id 2. -/
def songB : SongDto := mkSong (some 2) "B" 200

/-- A concrete track with id 3. -/
def songC : SongDto := mkSong (some 3) "C" 120

/-- A concrete track whose optional `id` is absent. -/
def songNoId : SongDto := mkSong none "untitled" 60

/-- A concrete playlist holding `[songA, songB]`. -/
def playlistAB : PlaylistDto := mkPlaylist "ab" (some [songA, songB])

/-- A state playing `songB` out of `playlistAB` with the playhead at 2.9 s. -/
def stateAt29 : PlayerState :=
  { initialState with currentSong := some songB, currentPlaylist := some playlistAB,
                      isPlaying := true, progress := mkRat 29 10 }

/-- The same state with the playhead at 3.1 s. -/
def stateAt31 : PlayerState :=
  { stateAt29 with progress := mkRat 31 10 }

/-! ## Invariants over reachable states -/

/-- A playing player holds a current track. -/
def PlayingInv (s : PlayerState) : Prop :=
  s.isPlaying = true → s.currentSong ≠ none

/-- Restriction under which `PlayingInv` is preserved: every track handed
to `playSong` carries an id (JavaScript's `undefined === undefined`
otherwise lets an id-less track match a null `currentSong`). -/
def PlayingSafe : Action → Prop
  | Action.playSong song => song.id ≠ none
  | _ => True

/-- The queue discipline: no queued track shares the current track's id,
queued ids are pairwise distinct, and the active playlist's song ids are
pairwise distinct. -/
def QueueInv (s : PlayerState) : Prop :=
  (∀ t ∈ s.queue, t.id ≠ currentSongId s) ∧
  (s.queue.map SongDto.id).Nodup ∧
  (∀ pl songs, s.currentPlaylist = some pl → pl.songs = some songs →
    (songs.map SongDto.id).Nodup)

/-- Restriction under which `QueueInv` is preserved: no `playSong`,
`addToQueue` or `updateQueueOrder` (each can place the current track into
the queue directly), and every track list fed to `playQueue` or
`playPlaylist` has pairwise-distinct ids. -/
def QueueSafe : Action → Prop
  | Action.playSong _ => False
  | Action.addToQueue _ => False
  | Action.updateQueueOrder _ => False
  | Action.playQueue songs _ => (songs.map SongDto.id).Nodup
  | Action.playPlaylist pl _ =>
      ∀ songs, pl.songs = some songs → (songs.map SongDto.id).Nodup
  | _ => True

/-! ## C1: `playQueue([A,B,C], 1)` -/

/-- C1 (counterexample): `playQueue([A,B,C], 1)` does not yield
`queue = [C]`; the claim that the track before the start index is dropped
fails on the concrete initial state. -/
theorem playQueue_start_index_one_claim_false :
    ¬((commitState (playQueue [songA, songB, songC] 1 initialState)).currentSong
        = some songB ∧
      (commitState (playQueue [songA, songB, songC] 1 initialState)).queue
        = [songC]) := by
  decide

/-- C1 (amended): for every track list `[A, B, C]` and every state,
`playQueue([A,B,C], 1)` sets `currentTrack = B` and `queue = [A, C]` —
only the element at the start index is removed, the preceding track `A`
is retained at the head of the queue. -/
theorem playQueue_start_index_one_spec (A B C : SongDto) (s : PlayerState) :
    commitState (playQueue [A, B, C] 1 s) =
      { s with currentSong := some B, queue := [A, C], isPlaying := true,
               progress := 0, isPlayerVisible := true } := by
  rfl

/-! ## C5: hiding the player -/

/-- C5 (counterexample): hiding the player from a visible, playing state
does not set the store's `isPlaying` to false nor its `progress` to 0 —
`togglePlayerVisibility` touches neither field. -/
theorem hide_player_store_flags_unchanged :
    ¬((togglePlayerVisibility { initialState with currentSong := some songA,
                                                  isPlaying := true,
                                                  progress := 5 }).isPlaying = false ∧
      (togglePlayerVisibility { initialState with currentSong := some songA,
                                                  isPlaying := true,
                                                  progress := 5 }).progress = 0) := by
  decide

/-- C5 (amended): hiding a visible player leaves the store's `isPlaying`
and `progress` unchanged; what stops is the audio device — the
`isPlayerVisible` effect of the hook pauses it and resets its position to
0 once the visibility flag has become false. -/
theorem hide_player_device_stop (s : PlayerState) (d : AudioDevice)
    (h : s.isPlayerVisible = true) :
    (togglePlayerVisibility s).isPlayerVisible = false ∧
    (togglePlayerVisibility s).isPlaying = s.isPlaying ∧
    (togglePlayerVisibility s).progress = s.progress ∧
    (onVisibilityChange (togglePlayerVisibility s).isPlayerVisible d).paused = true ∧
    (onVisibilityChange (togglePlayerVisibility s).isPlayerVisible d).currentTime = 0 := by
  simp [togglePlayerVisibility, onVisibilityChange, h]

/-- C5 witness: the amended statement applied to a visible, playing
concrete state and a concrete device. -/
theorem hide_player_device_stop_witness :
    (togglePlayerVisibility { initialState with currentSong := some songA,
                                                isPlaying := true,
                                                progress := 5 }).isPlayerVisible = false ∧
    (togglePlayerVisibility { initialState with currentSong := some songA,
                                                isPlaying := true,
                                                progress := 5 }).isPlaying
      = ({ initialState with currentSong := some songA, isPlaying := true,
                             progress := 5 } : PlayerState).isPlaying ∧
    (togglePlayerVisibility { initialState with currentSong := some songA,
                                                isPlaying := true,
                                                progress := 5 }).progress
      = ({ initialState with currentSong := some songA, isPlaying := true,
                             progress := 5 } : PlayerState).progress ∧
    (onVisibilityChange (togglePlayerVisibility { initialState with
        currentSong := some songA, isPlaying := true,
        progress := 5 }).isPlayerVisible ⟨"/files/1.mp3", false, 5⟩).paused = true ∧
    (onVisibilityChange (togglePlayerVisibility { initialState with
        currentSong := some songA, isPlaying := true,
        progress := 5 }).isPlayerVisible ⟨"/files/1.mp3", false, 5⟩).currentTime = 0 :=
  hide_player_device_stop
    { initialState with currentSong := some songA, isPlaying := true, progress := 5 }
    ⟨"/files/1.mp3", false, 5⟩ (by decide)

/-! ## C6: visibility toggle and fullscreen -/

/-- C6 (counterexample): hiding a visible fullscreen player leaves
`isFullscreen` true, not false as the claim states. -/
theorem hide_keeps_fullscreen :
    ¬((togglePlayerVisibility { initialState with isFullscreen := true }).isFullscreen
        = false) := by
  decide

/-- C6 (amended): `togglePlayerVisibility` clears `isFullscreen` when it
shows a hidden player and leaves it unchanged when it hides a visible
one — the opposite of the claim's direction. -/
theorem togglePlayerVisibility_fullscreen_spec (s t : PlayerState)
    (hs : s.isPlayerVisible = true) (ht : t.isPlayerVisible = false) :
    (togglePlayerVisibility s).isFullscreen = s.isFullscreen ∧
    (togglePlayerVisibility t).isFullscreen = false := by
  simp [togglePlayerVisibility, hs, ht]

/-- C6 witness: the amended statement at a visible and a hidden concrete
state, both fullscreen. -/
theorem togglePlayerVisibility_fullscreen_spec_witness :
    (togglePlayerVisibility { initialState with isFullscreen := true }).isFullscreen
      = ({ initialState with isFullscreen := true } : PlayerState).isFullscreen ∧
    (togglePlayerVisibility { initialState with isPlayerVisible := false,
                                                isFullscreen := true }).isFullscreen
      = false :=
  togglePlayerVisibility_fullscreen_spec
    { initialState with isFullscreen := true }
    { initialState with isPlayerVisible := false, isFullscreen := true }
    (by decide) (by decide)

/-! ## C7: `playQueue` on invalid arguments -/

/-- C7 (counterexample): a negative `startIndex` on a non-empty list is
not silently ignored — the call throws (the `Except.error` branch) before
any state change. -/
theorem playQueue_negative_index_throws :
    playQueue [songA] (-1) initialState = Except.error initialState ∧
    (Except.error initialState : Except PlayerState PlayerState)
      ≠ Except.ok initialState :=
  ⟨rfl, fun h => Except.noConfusion h⟩

/-- C7 (amended): `playQueue` fails silently — state unchanged, no
throw — only for an empty track list or a `startIndex ≥ length`; for a
negative `startIndex` on a non-empty list the guard does not apply,
`tracks[startIndex]` is `undefined`, and the call throws a TypeError (with
the state still unchanged at the throw). -/
theorem playQueue_invalid_args_spec (s : PlayerState)
    (songsHigh songsNeg : List SongDto) (idxHigh idxNeg : Int)
    (h1 : songsHigh.length = 0 ∨ (songsHigh.length : Int) ≤ idxHigh)
    (h2 : songsNeg.length ≠ 0) (h3 : idxNeg < 0) :
    playQueue songsHigh idxHigh s = Except.ok s ∧
    playQueue songsNeg idxNeg s = Except.error s := by
  constructor
  · unfold playQueue
    rw [if_pos h1]
  · have hguard : ¬(songsNeg.length = 0 ∨ (songsNeg.length : Int) ≤ idxNeg) := by
      push_neg
      refine ⟨h2, ?_⟩
      omega
    unfold playQueue
    rw [if_neg hguard, if_pos h3]

/-- C7 witness: the amended statement at `startIndex = 5` past the end of
a singleton list and at `startIndex = -1` on a singleton list. -/
theorem playQueue_invalid_args_spec_witness :
    playQueue [songA] 5 initialState = Except.ok initialState ∧
    playQueue [songA] (-1) initialState = Except.error initialState :=
  playQueue_invalid_args_spec initialState [songA] [songA] 5 (-1)
    (by decide) (by decide) (by decide)

/-! ## C8: stale stream-URL resolution -/

/-- C8: the `loadSong` continuation has no staleness guard.  With the
store already on track B (id 2) and the device playing B's source, a
late-arriving resolution of track A's URL is applied anyway: the device
source becomes A's URL and playback of A starts.  The only check made is
against the device's current source, never against the store's current
track. -/
theorem loadSong_applies_stale_resolution :
    ({ initialState with currentSong := some songB,
                         isPlaying := true } : PlayerState).currentSong = some songB ∧
    songA ≠ songB ∧
    (loadSongApply "/files/a.mp3" true
        ⟨"/files/b.mp3", false, 10⟩).src = "/files/a.mp3" ∧
    (loadSongApply "/files/a.mp3" true
        ⟨"/files/b.mp3", false, 10⟩).paused = false := by
  decide

/-! ## C9: `playSong` on the current track -/

/-- C9: for any state whose current track is `t`, `playSong t` only sets
`isPlaying := true` — every other field, in particular `progress`, the
current track and the queue, is untouched — and a second call changes
nothing further. -/
theorem playSong_current_idempotent (s : PlayerState) (t : SongDto)
    (h : s.currentSong = some t) :
    playSong t s = { s with isPlaying := true } ∧
    playSong t (playSong t s) = playSong t s := by
  rcases s with ⟨cs, cp, q, ip, v, pr, du, vis, fs⟩
  obtain rfl : cs = some t := h
  cases ip <;> simp [playSong, currentSongId]

/-- C9 witness: the statement applied to a concrete paused state
currently holding `songA` with a non-zero playhead and a non-empty
queue. -/
theorem playSong_current_idempotent_witness :
    playSong songA { initialState with currentSong := some songA, progress := 42,
                                       queue := [songB] }
      = { initialState with currentSong := some songA, progress := 42,
                            queue := [songB], isPlaying := true } ∧
    playSong songA (playSong songA { initialState with currentSong := some songA,
                                                       progress := 42,
                                                       queue := [songB] })
      = playSong songA { initialState with currentSong := some songA, progress := 42,
                                           queue := [songB] } :=
  playSong_current_idempotent
    { initialState with currentSong := some songA, progress := 42, queue := [songB] }
    songA (by decide)

/-! ## C10: `previous` without a usable playlist context -/

/-- C10: with the playhead at or below 3 seconds and no usable playlist
context (no `currentPlaylist`, or one with absent or empty `songs`),
`previous` leaves the entire state unchanged. -/
theorem previous_no_context_noop (s : PlayerState)
    (hprog : s.progress ≤ 3)
    (hctx : s.currentPlaylist = none ∨
            s.currentPlaylist.bind PlaylistDto.songs = none ∨
            s.currentPlaylist.bind PlaylistDto.songs = some []) :
    previous s = s := by
  have hlt : ¬3 < s.progress := not_lt.mpr hprog
  unfold previous
  rw [if_neg hlt]
  cases hpl : s.currentPlaylist with
  | none => rfl
  | some pl =>
      cases hsongs : pl.songs with
      | none => simp [hsongs]
      | some songs =>
          have hempty : songs = [] := by
            rcases hctx with hc | hc | hc
            · simp [hpl] at hc
            · simp [hpl, hsongs] at hc
            · simp [hpl, hsongs] at hc
              exact hc
          subst hempty
          simp [hsongs]

/-- C10 witness: `previous` at `progress = 2` with a current track and no
playlist context is the identity on a concrete state. -/
theorem previous_no_context_noop_witness :
    previous { initialState with currentSong := some songA, progress := 2 }
      = { initialState with currentSong := some songA, progress := 2 } :=
  previous_no_context_noop
    { initialState with currentSong := some songA, progress := 2 }
    (by norm_num [initialState]) (Or.inl (by decide))

/-! ## C2: the previous-vs-restart boundary -/

/-- C2 (counterexample): at `progress = 2.9` with a playlist context,
`previous` does not leave the current track in place — it advances to the
preceding playlist track; and at `progress = 3.1` it does not advance —
the current track is unchanged. -/
theorem previous_boundary_claim_false :
    (previous stateAt29).currentSong ≠ stateAt29.currentSong ∧
    (previous stateAt31).currentSong = stateAt31.currentSong := by
  decide

/-- C2 (amended): the boundary runs the other way round: at
`progress = 3.1` (above the 3-second threshold) `previous` restarts the
current track in place — `progress := 0` and nothing else changes — while
at `progress = 2.9` with a playlist context in which `findIndex` locates
the current track at a positive index, `previous` advances to the
preceding playlist track and resets the playhead. -/
theorem previous_boundary_spec (s t : PlayerState) (pl : PlaylistDto)
    (songs : List SongDto) (i : Nat) (p : SongDto)
    (hs : s.progress = mkRat 31 10)
    (ht : t.progress = mkRat 29 10)
    (hpl : t.currentPlaylist = some pl)
    (hsongs : pl.songs = some songs)
    (hidx : songs.findIdx? (fun song => song.id == currentSongId t) = some i)
    (hi : 0 < i)
    (hp : songs.get? (i - 1) = some p) :
    previous s = { s with progress := 0 } ∧
    (previous t).currentSong = some p ∧ (previous t).progress = 0 := by
  constructor
  · unfold previous
    rw [if_pos (by rw [hs]; decide)]
  · have hne : songs.length ≠ 0 := by
      intro h0
      rw [List.length_eq_zero] at h0
      subst h0
      simp at hidx
    have hp' : songs[i - 1]? = some p := by simpa using hp
    unfold previous
    rw [if_neg (by rw [ht]; decide), hpl]
    simp [hsongs, hidx, hp', hne, hi]

/-- C2 witness: the amended statement applied to the concrete states at
3.1 s and 2.9 s over the playlist `[songA, songB]` with `songB`
current. -/
theorem previous_boundary_spec_witness :
    previous stateAt31 = { stateAt31 with progress := 0 } ∧
    (previous stateAt29).currentSong = some songA ∧
    (previous stateAt29).progress = 0 :=
  previous_boundary_spec stateAt31 stateAt29 playlistAB [songA, songB] 1 songA
    (by decide) (by decide) (by decide) (by decide) (by decide) (by decide)
    (by decide)

/-! ## Helper lemmas on lists -/

/-- An element of `l.eraseIdx i` is an element of `l`. -/
lemma mem_of_mem_eraseIdx {α : Type} {l : List α} {i : ℕ} {t : α}
    (h : t ∈ l.eraseIdx i) : t ∈ l :=
  (List.eraseIdx_sublist l i).subset h

/-- Under a duplicate-free image, removing position `i` removes every
occurrence of the image of the element at `i`. -/
lemma nodup_map_eraseIdx_ne {α β : Type} (f : α → β) (l : List α) (i : ℕ)
    (x : α) (h : (l.map f).Nodup) (hx : l.get? i = some x) :
    ∀ t ∈ l.eraseIdx i, f t ≠ f x := by
  induction l generalizing i with
  | nil => simp at hx
  | cons a tl ih =>
      rw [List.map_cons, List.nodup_cons] at h
      cases i with
      | zero =>
          obtain rfl : a = x := by simpa using hx
          intro t ht he
          have httl : t ∈ tl := by simpa [List.eraseIdx] using ht
          exact h.1 (he ▸ List.mem_map_of_mem f httl)
      | succ i =>
          have hxtl : x ∈ tl := List.get?_mem (by simpa using hx)
          intro t ht
          have ht' : t = a ∨ t ∈ tl.eraseIdx i := by
            simpa [List.eraseIdx] using ht
          rcases ht' with rfl | ht'
          · intro he
            exact h.1 (he ▸ List.mem_map_of_mem f hxtl)
          · exact ih i h.2 (by simpa using hx) t ht'

/-- Under a duplicate-free image, dropping `i` elements removes every
occurrence of the image of any element at a position before `i`. -/
lemma nodup_map_drop_ne {α β : Type} (f : α → β) (l : List α) (i j : ℕ)
    (x : α) (h : (l.map f).Nodup) (hx : l.get? j = some x) (hji : j < i) :
    ∀ t ∈ l.drop i, f t ≠ f x := by
  induction l generalizing i j with
  | nil => simp at hx
  | cons a tl ih =>
      rw [List.map_cons, List.nodup_cons] at h
      cases j with
      | zero =>
          obtain rfl : a = x := by simpa using hx
          intro t ht he
          have httl : t ∈ tl := by
            cases i with
            | zero => omega
            | succ i => exact List.mem_of_mem_drop (by simpa using ht)
          exact h.1 (he ▸ List.mem_map_of_mem f httl)
      | succ j =>
          cases i with
          | zero => omega
          | succ i =>
              intro t ht
              exact ih i j h.2 (by simpa using hx) (by omega) t
                (by simpa using ht)

/-! ## Preservation of `PlayingInv` -/

/-- `playQueue` preserves the playing-implies-current invariant. -/
lemma playingInv_playQueue (songs : List SongDto) (i : Int) (s : PlayerState)
    (h : PlayingInv s) : PlayingInv (commitState (playQueue songs i s)) := by
  unfold playQueue
  split
  · exact h
  split
  · exact h
  split
  · intro _
    simp [commitState]
  · exact h

/-- Every store operation preserves the playing-implies-current
invariant, provided any `playSong` argument carries an id. -/
lemma playingInv_step (s : PlayerState) (a : Action) (ha : PlayingSafe a)
    (h : PlayingInv s) : PlayingInv (step s a) := by
  cases a with
  | playSong song =>
      have hid : song.id ≠ none := ha
      show PlayingInv (playSong song s)
      unfold playSong
      by_cases hc : currentSongId s = song.id
      · rw [if_pos hc]
        have hcur : s.currentSong ≠ none := by
          intro hn
          apply hid
          rw [← hc]
          simp [currentSongId, hn]
        split
        · exact h
        · intro _
          exact hcur
      · rw [if_neg hc]
        intro _
        simp
  | playQueue songs i => exact playingInv_playQueue songs i s h
  | playPlaylist pl i =>
      show PlayingInv (commitState (playPlaylist pl i s))
      unfold playPlaylist
      split
      · exact h
      · split
        · exact h
        · exact playingInv_playQueue _ _ _ h
  | togglePlay =>
      show PlayingInv (togglePlay s)
      unfold togglePlay
      split
      · rename_i t heq
        intro _
        simp [heq]
      · exact h
  | play =>
      show PlayingInv (play s)
      unfold play
      split
      · rename_i t heq
        intro _
        simp [heq]
      · exact h
  | pause =>
      intro hp
      simp [step, pause] at hp
  | next =>
      show PlayingInv (next s)
      unfold next
      split
      · intro _
        simp
      · split
        · split
          · intro _
            simp
          · intro hp
            simp at hp
          · intro hp
            simp at hp
        · intro hp
          simp at hp
  | previous =>
      show PlayingInv (previous s)
      unfold previous
      split
      · exact h
      · split
        · exact h
        · split
          · exact h
          · split
            · exact h
            · split
              · split
                · split
                  · intro _
                    simp
                  · exact h
                · exact h
              · exact h
  | setVolume v => exact h
  | setProgress p => exact h
  | setDuration d => exact h
  | addToQueue song => exact h
  | removeFromQueue idx =>
      show PlayingInv (removeFromQueue idx s)
      unfold removeFromQueue
      split
      · exact h
      · exact h
  | clearQueue => exact h
  | updateQueueOrder q => exact h
  | stopAndClosePlayer =>
      intro hp
      simp [step, stopAndClosePlayer] at hp
  | togglePlayerVisibility => exact h
  | toggleFullscreen =>
      show PlayingInv (toggleFullscreen s)
      unfold toggleFullscreen
      split
      · exact h
      · exact h

/-- `PlayingInv` holds along any run of restricted operations. -/
lemma playingInv_run (s : PlayerState) (acts : List Action)
    (hacts : ∀ a ∈ acts, PlayingSafe a) (h : PlayingInv s) :
    PlayingInv (run s acts) := by
  induction acts generalizing s with
  | nil => exact h
  | cons a rest ih =>
      exact ih (step s a)
        (fun b hb => hacts b (List.mem_cons_of_mem a hb))
        (playingInv_step s a (hacts a (List.mem_cons_self a rest)) h)

/-! ## C4: `isPlaying = true` implies a current track -/

/-- C4 (counterexample): from the initial state, `playSong` with a track
whose optional id is absent satisfies `currentSong?.id === song.id`
(`undefined === undefined` is true) against the null current track, so
only `isPlaying := true` is set: the next state has `isPlaying = true`
and `currentTrack = null`. -/
theorem isPlaying_with_no_current_reachable :
    (run initialState [Action.playSong songNoId]).isPlaying = true ∧
    (run initialState [Action.playSong songNoId]).currentSong = none := by
  decide

/-- C4 (amended): along every operation sequence in which each track
passed to `playSong` carries an id, every reachable state satisfies
`isPlaying = true → currentTrack ≠ null`. -/
theorem reachable_isPlaying_implies_current (acts : List Action)
    (hacts : ∀ a ∈ acts, PlayingSafe a)
    (hp : (run initialState acts).isPlaying = true) :
    (run initialState acts).currentSong ≠ none :=
  playingInv_run initialState acts hacts
    (by intro h0; simp [initialState] at h0) hp

/-- C4 witness: the amended statement on the one-step run playing
`songA`. -/
theorem reachable_isPlaying_implies_current_witness :
    (run initialState [Action.playSong songA]).currentSong ≠ none :=
  reachable_isPlaying_implies_current [Action.playSong songA]
    (by intro a ha
        cases ha with
        | head => exact (by decide : songA.id ≠ none)
        | tail _ hb => cases hb)
    (by decide)

/-! ## Preservation of `QueueInv` -/

/-- `playQueue` on an id-distinct track list preserves the queue
discipline. -/
lemma queueInv_playQueue (songs : List SongDto) (i : Int) (s : PlayerState)
    (hnd : (songs.map SongDto.id).Nodup) (h : QueueInv s) :
    QueueInv (commitState (playQueue songs i s)) := by
  obtain ⟨h1, h2, h3⟩ := h
  unfold playQueue
  split
  · exact ⟨h1, h2, h3⟩
  split
  · exact ⟨h1, h2, h3⟩
  split
  · rename_i cur hget
    refine ⟨?_, ?_, ?_⟩
    · intro t ht
      have ht' : t ∈ songs.eraseIdx i.toNat := ht
      have := nodup_map_eraseIdx_ne SongDto.id songs i.toNat cur hnd hget t ht'
      simpa [commitState, currentSongId] using this
    · have hsub : ((songs.eraseIdx i.toNat).map SongDto.id).Sublist
          (songs.map SongDto.id) :=
        (List.eraseIdx_sublist songs i.toNat).map SongDto.id
      exact hnd.sublist hsub
    · intro pl songs' hpl hsongs
      exact h3 pl songs' hpl hsongs
  · exact ⟨h1, h2, h3⟩

/-- Every store operation preserves the queue discipline under the
`QueueSafe` restriction. -/
lemma queueInv_step (s : PlayerState) (a : Action) (ha : QueueSafe a)
    (h : QueueInv s) : QueueInv (step s a) := by
  obtain ⟨h1, h2, h3⟩ := h
  cases a with
  | playSong song => exact absurd ha id
  | playQueue songs i => exact queueInv_playQueue songs i s ha ⟨h1, h2, h3⟩
  | playPlaylist pl i =>
      show QueueInv (commitState (playPlaylist pl i s))
      unfold playPlaylist
      split
      · exact ⟨h1, h2, h3⟩
      · rename_i songs hsongs
        split
        · exact ⟨h1, h2, h3⟩
        · refine queueInv_playQueue songs i _ (ha songs hsongs) ⟨h1, h2, ?_⟩
          intro pl' songs' hpl' hsongs'
          obtain rfl : pl = pl' := by simpa using hpl'
          rw [hsongs] at hsongs'
          obtain rfl : songs = songs' := by simpa using hsongs'
          exact ha songs hsongs
  | togglePlay =>
      show QueueInv (togglePlay s)
      unfold togglePlay
      split
      · exact ⟨h1, h2, h3⟩
      · exact ⟨h1, h2, h3⟩
  | play =>
      show QueueInv (play s)
      unfold play
      split
      · exact ⟨h1, h2, h3⟩
      · exact ⟨h1, h2, h3⟩
  | pause => exact ⟨h1, h2, h3⟩
  | next =>
      show QueueInv (next s)
      unfold next
      split
      · rename_i q0 rest hq
        rw [hq, List.map_cons, List.nodup_cons] at h2
        refine ⟨?_, h2.2, h3⟩
        intro t ht he
        simp [currentSongId] at he
        exact h2.1 (he ▸ List.mem_map_of_mem SongDto.id ht)
      · split
        · split
          · rename_i pl hpl x2 first rest hsongs
            have hnd := h3 pl (first :: rest) hpl hsongs
            rw [List.map_cons, List.nodup_cons] at hnd
            refine ⟨?_, hnd.2, h3⟩
            intro t ht he
            simp [currentSongId] at he
            exact hnd.1 (he ▸ List.mem_map_of_mem SongDto.id ht)
          · exact ⟨h1, h2, h3⟩
          · exact ⟨h1, h2, h3⟩
        · exact ⟨h1, h2, h3⟩
  | previous =>
      show QueueInv (previous s)
      unfold previous
      split
      · exact ⟨h1, h2, h3⟩
      · split
        · exact ⟨h1, h2, h3⟩
        · split
          · exact ⟨h1, h2, h3⟩
          · split
            · exact ⟨h1, h2, h3⟩
            · split
              · split
                · split
                  · rename_i pl hpl x2 songs hsongs hlen x3 i hfind hi x4 p hget
                    have hnd := h3 pl songs hpl hsongs
                    refine ⟨?_, ?_, h3⟩
                    · intro t ht he
                      simp [currentSongId] at he
                      exact nodup_map_drop_ne SongDto.id songs i (i - 1) p hnd
                        hget (by omega) t ht he
                    · exact hnd.sublist ((List.drop_sublist i songs).map SongDto.id)
                  · exact ⟨h1, h2, h3⟩
                · exact ⟨h1, h2, h3⟩
              · exact ⟨h1, h2, h3⟩
  | setVolume v => exact ⟨h1, h2, h3⟩
  | setProgress p => exact ⟨h1, h2, h3⟩
  | setDuration d => exact ⟨h1, h2, h3⟩
  | addToQueue song => exact absurd ha id
  | removeFromQueue idx =>
      show QueueInv (removeFromQueue idx s)
      unfold removeFromQueue
      split
      · refine ⟨?_, ?_, h3⟩
        · intro t ht
          exact h1 t (mem_of_mem_eraseIdx ht)
        · exact h2.sublist
            ((List.eraseIdx_sublist s.queue idx.toNat).map SongDto.id)
      · exact ⟨h1, h2, h3⟩
  | clearQueue =>
      refine ⟨?_, ?_, h3⟩
      · intro t ht
        simp [step, clearQueue] at ht
      · simp [step, clearQueue]
  | updateQueueOrder q => exact absurd ha id
  | stopAndClosePlayer =>
      refine ⟨?_, ?_, ?_⟩
      · intro t ht
        simp [step, stopAndClosePlayer] at ht
      · simp [step, stopAndClosePlayer]
      · intro pl songs hpl
        simp [step, stopAndClosePlayer] at hpl
  | togglePlayerVisibility => exact ⟨h1, h2, h3⟩
  | toggleFullscreen =>
      show QueueInv (toggleFullscreen s)
      unfold toggleFullscreen
      split
      · exact ⟨h1, h2, h3⟩
      · exact ⟨h1, h2, h3⟩

/-- `QueueInv` holds along any run of restricted operations. -/
lemma queueInv_run (s : PlayerState) (acts : List Action)
    (hacts : ∀ a ∈ acts, QueueSafe a) (h : QueueInv s) :
    QueueInv (run s acts) := by
  induction acts generalizing s with
  | nil => exact h
  | cons a rest ih =>
      exact ih (step s a)
        (fun b hb => hacts b (List.mem_cons_of_mem a hb))
        (queueInv_step s a (hacts a (List.mem_cons_self a rest)) h)

/-! ## C3: the current track is never in the queue -/

/-- C3 (counterexample): the reachable state after `addToQueue(songA)`
followed by `playSong(songA)` has `songA` both current and in the queue —
`playSong` does not remove its argument from the queue. -/
theorem queue_contains_current_reachable :
    (run initialState
        [Action.addToQueue songA, Action.playSong songA]).currentSong
      = some songA ∧
    songA ∈ (run initialState
        [Action.addToQueue songA, Action.playSong songA]).queue := by
  decide

/-- C3 (amended): along every operation sequence that avoids `playSong`,
`addToQueue` and `updateQueueOrder` and in which every track list handed
to `playQueue` or `playPlaylist` has pairwise-distinct ids, the current
track is never an element of the queue. -/
theorem reachable_queue_excludes_current (acts : List Action)
    (hacts : ∀ a ∈ acts, QueueSafe a) (c : SongDto)
    (hc : (run initialState acts).currentSong = some c) :
    c ∉ (run initialState acts).queue := by
  have hinv := queueInv_run initialState acts hacts
    ⟨by intro t ht; simp [initialState] at ht,
     by simp [initialState],
     by intro pl songs hpl; simp [initialState] at hpl⟩
  intro hmem
  exact hinv.1 c hmem (by simp [currentSongId, hc])

/-- C3 witness: the amended statement on the run that plays the
id-distinct queue `[songA, songB]` from index 0. -/
theorem reachable_queue_excludes_current_witness :
    songA ∉ (run initialState [Action.playQueue [songA, songB] 0]).queue :=
  reachable_queue_excludes_current [Action.playQueue [songA, songB] 0]
    (by intro a ha
        cases ha with
        | head => exact (by decide : ([songA, songB].map SongDto.id).Nodup)
        | tail _ hb => cases hb)
    songA (by decide)

end Groovy
